import Mathlib

/-! Verification of the deduplication-and-dispatch pipeline of
`src/arxiv_alert_bot.py`: the ledger of already-notified paper ids, the
filter stage, the multi-channel notification dispatcher with per-channel
retry, and the commit step of `ArxivAlertBot.run`. Python strings become
`String`, the SQLite `sent_papers` table becomes a list of rows with the
`INSERT OR IGNORE` semantics made explicit, and a raised exception becomes
an `Except.error`. -/

namespace ArxivAlertBot

/-- A candidate record: the fields of an `arxiv.Result` that the bot reads
(author objects are reduced to their `name` string). -/
structure Paper where
  entry_id : String
  title : String
  summary : String
  authors : List String
  categories : List String
  published : String
deriving DecidableEq

/-- Python `str.split('/')`: split a character list at every slash
(structural recursion so that concrete instances evaluate). -/
def splitSlash : List Char → List (List Char)
  | [] => [[]]
  | c :: cs =>
    let r := splitSlash cs
    if c == '/' then [] :: r
    else
      match r with
      | [] => [[c]]
      | g :: gs => (c :: g) :: gs

/-- Python `s.split('/')[-1]` (the trailing index is total because `split`
always returns a non-empty list). -/
def last_component (s : String) : String :=
  String.mk ((splitSlash s.data).getLastD [])

/-- `paper.entry_id.split('/')[-1]` as used at lines 141, 270 and 342. -/
def paper_id (p : Paper) : String :=
  last_component p.entry_id

/-- One row of the `sent_papers` table (line 67-74): primary key `paper_id`,
plus title, sent date and the comma-joined categories. -/
structure LedgerEntry where
  paper_id : String
  title : String
  sent_date : String
  categories : String
deriving DecidableEq

/-- `_get_sent_papers` (lines 78-82): the stored paper ids; the Python set is
modelled by the id list, membership standing in for set membership. -/
def get_sent_papers (db : List LedgerEntry) : List String :=
  db.map (fun e => e.paper_id)

/-- `_mark_as_sent` (lines 84-91): `INSERT OR IGNORE` on the primary key
`paper_id` appends a fresh row unless a row with that id already exists, in
which case the statement is a no-op. -/
def mark_as_sent (db : List LedgerEntry) (pid title sent_date : String)
    (categories : List String) : List LedgerEntry :=
  if db.any (fun e => e.paper_id == pid) then db
  else db ++ [⟨pid, title, sent_date, String.intercalate (",") categories⟩]

/-- Python `str.lower()` (ASCII case folding suffices for this model). -/
def lowerStr (s : String) : String :=
  String.mk (s.data.map Char.toLower)

/-- Does the character list start with `pat`? -/
def startsWithList : List Char → List Char → Bool
  | [], _ => true
  | _ :: _, [] => false
  | a :: as, b :: bs => a == b && startsWithList as bs

/-- Substring scan: does `pat` occur contiguously in the list? -/
def hasSubstringAux (pat : List Char) : List Char → Bool
  | [] => pat.isEmpty
  | c :: cs => startsWithList pat (c :: cs) || hasSubstringAux pat cs

/-- Python `needle in hay` on strings (contiguous substring test). -/
def py_in (needle hay : String) : Bool :=
  hasSubstringAux needle.data hay.data

/-- Keyword configuration read at lines 136-138; a missing config key yields
the empty list, exactly as `filter_config.get(..., [])` does. -/
structure FilterConfig where
  title_keywords : List String
  abstract_keywords : List String
deriving DecidableEq

/-- `filter_papers` (lines 131-159): walk the candidates in order; skip a
paper whose id is already sent; with a non-empty title keyword list, skip
unless some keyword occurs case-insensitively in the title; likewise for
abstract keywords; keep the rest, preserving order. -/
def filter_papers (sent : List String) (cfg : FilterConfig) : List Paper → List Paper
  | [] => []
  | p :: rest =>
    if sent.contains (paper_id p) then
      filter_papers sent cfg rest
    else if !cfg.title_keywords.isEmpty
        && !(cfg.title_keywords.any (fun kw => py_in (lowerStr kw) (lowerStr p.title))) then
      filter_papers sent cfg rest
    else if !cfg.abstract_keywords.isEmpty
        && !(cfg.abstract_keywords.any (fun kw => py_in (lowerStr kw) (lowerStr p.summary))) then
      filter_papers sent cfg rest
    else
      p :: filter_papers sent cfg rest

/-- The spec-side keep predicate (spec sections 3 and 4.2, written from the
spec words, to be compared with `filter_papers`): identifier not among the
known ones, and each non-empty rule set has at least one case-insensitive
substring match, an empty rule set imposing no constraint. -/
def keepSpec (sent : List String) (cfg : FilterConfig) (p : Paper) : Bool :=
  !(sent.contains (paper_id p))
    && (cfg.title_keywords.isEmpty
        || cfg.title_keywords.any (fun kw => py_in (lowerStr kw) (lowerStr p.title)))
    && (cfg.abstract_keywords.isEmpty
        || cfg.abstract_keywords.any (fun kw => py_in (lowerStr kw) (lowerStr p.summary)))

/-- A candidate as the dynamically-typed source actually sees it: each field
the filter stage dereferences may be missing (`None`). -/
structure RawPaper where
  entry_id : Option String
  title : Option String
  summary : Option String
deriving DecidableEq

/-- Attribute access on a possibly-missing field: dereferencing `None`
raises, which the filter stage does not catch. -/
def pyGetAttr (v : Option String) : Except String String :=
  match v with
  | some s => Except.ok s
  | none => Except.error ("AttributeError")

/-- A fully-present record viewed as a raw one. -/
def toRaw (p : Paper) : RawPaper :=
  ⟨some p.entry_id, some p.title, some p.summary⟩

/-- `filter_papers` (lines 131-159) with the dynamic field accesses explicit:
line 141 dereferences `entry_id`, line 149 dereferences `title` only when
title keywords are configured, line 153 dereferences `summary` only when
abstract keywords are configured; a raised error aborts the whole batch. -/
def py_filter_papers (sent : List String) (cfg : FilterConfig) :
    List RawPaper → Except String (List RawPaper)
  | [] => Except.ok []
  | p :: rest =>
    match pyGetAttr p.entry_id with
    | Except.error e => Except.error e
    | Except.ok eid =>
      if sent.contains (last_component eid) then
        py_filter_papers sent cfg rest
      else
        match (if !cfg.title_keywords.isEmpty then
                match pyGetAttr p.title with
                | Except.error e => Except.error e
                | Except.ok t =>
                  Except.ok (cfg.title_keywords.any (fun kw => py_in (lowerStr kw) (lowerStr t)))
              else Except.ok true) with
        | Except.error e => Except.error e
        | Except.ok keepT =>
          if !keepT then py_filter_papers sent cfg rest
          else
            match (if !cfg.abstract_keywords.isEmpty then
                    match pyGetAttr p.summary with
                    | Except.error e => Except.error e
                    | Except.ok s =>
                      Except.ok (cfg.abstract_keywords.any (fun kw => py_in (lowerStr kw) (lowerStr s)))
                  else Except.ok true) with
            | Except.error e => Except.error e
            | Except.ok keepA =>
              if !keepA then py_filter_papers sent cfg rest
              else
                match py_filter_papers sent cfg rest with
                | Except.error e => Except.error e
                | Except.ok r => Except.ok (p :: r)

/-- One notification channel (`send_email` / `send_slack` / `send_webhook`,
lines 178-294): an enabled flag and the outcome of each numbered delivery
attempt, `Except.error` standing for the exception those methods re-raise on
failure. -/
structure Channel where
  enabled : Bool
  deliver : Nat → Except String Unit

/-- Is the call outcome a success? -/
def okB : Except String Unit → Bool
  | Except.ok _ => true
  | Except.error _ => false

/-- One call of a notification method: a disabled channel returns at once
without delivering (lines 182-183, 214-215, 261-262); an enabled one
performs the numbered delivery attempt. -/
def methodCall (ch : Channel) (attempt : Nat) : Except String Unit :=
  if !ch.enabled then Except.ok () else ch.deliver attempt

/-- What one channel's retry loop did: how many times its method was invoked
and whether an invocation succeeded. -/
structure ChannelResult where
  attempts : Nat
  delivered : Bool
deriving DecidableEq

/-- The per-channel retry loop of `send_notifications` (lines 312-320):
try the method, break on success, catch the exception and move to the next
attempt otherwise; the inner error case propagates an exception the loop
body failed to catch (the handler only logs, so none exists). Arguments are
remaining attempts and current attempt index. -/
def retryChannel (ch : Channel) : Nat → Nat → Except String ChannelResult
  | 0, _ => Except.ok ⟨0, false⟩
  | fuel + 1, attempt =>
    match methodCall ch attempt with
    | Except.ok _ => Except.ok ⟨1, true⟩
    | Except.error _ =>
      match retryChannel ch fuel (attempt + 1) with
      | Except.ok r => Except.ok ⟨r.attempts + 1, r.delivered⟩
      | Except.error e => Except.error e

/-- Total description of the same loop, proved equal to `retryChannel`
below. -/
def chResultAux (ch : Channel) : Nat → Nat → ChannelResult
  | 0, _ => ⟨0, false⟩
  | fuel + 1, attempt =>
    match methodCall ch attempt with
    | Except.ok _ => ⟨1, true⟩
    | Except.error _ =>
      let r := chResultAux ch fuel (attempt + 1)
      ⟨r.attempts + 1, r.delivered⟩

/-- The `for method_name, method_func in notification_methods` loop
(lines 311-320), one retry loop per channel in order, propagating any
uncaught exception. -/
def dispatchChannels (m : Nat) : List Channel → Except String (List ChannelResult)
  | [] => Except.ok []
  | ch :: rest =>
    match retryChannel ch m 0 with
    | Except.ok r =>
      match dispatchChannels m rest with
      | Except.ok rs => Except.ok (r :: rs)
      | Except.error e => Except.error e
    | Except.error e => Except.error e

/-- The bot configuration slice that `send_notifications` and `run` read:
the filter rules, the three channels and the optional retry bound. -/
structure BotConfig where
  filter : FilterConfig
  email : Channel
  slack : Channel
  webhook : Channel
  retry_max_attempts : Option Nat

/-- `retry_config.get('max_attempts', 3)` (line 303). -/
def maxAttemptsOf (cfg : BotConfig) : Nat :=
  cfg.retry_max_attempts.getD 3

/-- The `notification_methods` list (lines 305-309), in source order. -/
def channelsOf (cfg : BotConfig) : List Channel :=
  [cfg.email, cfg.slack, cfg.webhook]

/-- `send_notifications` (lines 296-320): return at once on an empty paper
list without touching any channel; otherwise run the retry loop for each of
the three channels in order. -/
def send_notifications (cfg : BotConfig) (papers : List Paper) :
    Except String (List ChannelResult) :=
  if papers.isEmpty then Except.ok []
  else dispatchChannels (maxAttemptsOf cfg) (channelsOf cfg)

/-- How often a channel's underlying delivery runs in its retry loop: every
method invocation delivers exactly when the channel is enabled. -/
def deliver_calls (ch : Channel) (m : Nat) : Nat :=
  if ch.enabled then (chResultAux ch m 0).attempts else 0

/-- The papers iterated into the email body (line 193): the full list. -/
def email_papers (papers : List Paper) : List Paper :=
  papers

/-- The papers rendered into Slack blocks: `papers[:10]` (line 228). -/
def slack_papers (papers : List Paper) : List Paper :=
  papers.take 10

/-- The papers serialized into the generic webhook payload (lines 268-279):
the full list. -/
def webhook_papers (papers : List Paper) : List Paper :=
  papers

/-- `format_paper_summary` (lines 161-176): total on present fields — at
most three authors, `et al.` beyond that, abstract cut to 300 characters. -/
def format_paper_summary (p : Paper) : String :=
  let authors := String.intercalate (", ") (p.authors.take 3)
  let authors := if p.authors.length > 3 then authors ++ (" et al.") else authors
  (String.intercalate ("\n")
    [("Title: ") ++ p.title,
     ("Authors: ") ++ authors,
     ("Published: ") ++ p.published,
     ("Categories: ") ++ String.intercalate (", ") p.categories,
     ("URL: ") ++ p.entry_id,
     ("Abstract: ") ++ String.mk (p.summary.data.take 300)])

/-- The database held by the bot between the pipeline stages. -/
structure BotState where
  db : List LedgerEntry
deriving DecidableEq

/-- The commit loop of `run` (lines 341-343): mark every filtered paper as
sent, in order. -/
def commit (db : List LedgerEntry) (papers : List Paper) (now : String) :
    List LedgerEntry :=
  papers.foldl (fun d p => mark_as_sent d (paper_id p) p.title now p.categories) db

/-- `run` (lines 322-351) with the external fetch result passed in as the
candidate list: filter against the ledger snapshot, return early when
nothing is new, otherwise dispatch the notifications and then commit every
filtered paper; `none` in the second component means the dispatcher was
never invoked. -/
def run (st : BotState) (cfg : BotConfig) (papers : List Paper) (now : String) :
    BotState × Option (Except String (List ChannelResult)) :=
  let filtered := filter_papers (get_sent_papers st.db) cfg.filter papers
  if filtered.isEmpty then (st, none)
  else (⟨commit st.db filtered now⟩, some (send_notifications cfg filtered))

/-- Sample paper used to instantiate witnesses. -/
def paperA : Paper :=
  ⟨"http://arxiv.org/abs/2401.00001v1", "Efficient Transformers",
   "We study transformer models.", ["Ada Lovelace"], ["cs.AI"], "2024-01-01"⟩

/-- Second sample paper. -/
def paperB : Paper :=
  ⟨"http://arxiv.org/abs/2401.00002v1", "Diffusion Models",
   "A survey of diffusion.", ["Alan Turing"], ["cs.LG"], "2024-01-02"⟩

/-- A ledger row matching `paperA`. -/
def entryA : LedgerEntry :=
  ⟨"2401.00001v1", "Efficient Transformers", "2024-01-03", "cs.AI"⟩

/-- An enabled channel whose delivery always succeeds. -/
def chOk : Channel :=
  ⟨true, fun _ => Except.ok ()⟩

/-- An enabled channel whose delivery always fails. -/
def chFail : Channel :=
  ⟨true, fun _ => Except.error ("network error")⟩

/-- A disabled channel. -/
def chOff : Channel :=
  ⟨false, fun _ => Except.error ("unused")⟩

/-- A configuration with no keyword rules, a failing email channel, a
succeeding chat channel, a disabled webhook channel and three attempts. -/
def cfgAB : BotConfig :=
  ⟨⟨[], []⟩, chFail, chOk, chOff, some 3⟩

/-- A configuration whose retry bound is explicitly configured to zero. -/
def cfgZero : BotConfig :=
  ⟨⟨[], []⟩, chOk, chOk, chOk, some 0⟩

/-- A raw candidate whose `title` field is missing. -/
def badRaw : RawPaper :=
  ⟨some ("http://arxiv.org/abs/2401.00009v1"), none, some ("An abstract.")⟩

/-! ### Helper lemmas -/

/-- The source's filter loop is the functional filter by `keepSpec`. -/
theorem filter_papers_eq_filter (sent : List String) (cfg : FilterConfig)
    (ps : List Paper) :
    filter_papers sent cfg ps = ps.filter (keepSpec sent cfg) := by
  induction ps with
  | nil => rfl
  | cons p rest ih =>
    simp only [filter_papers, List.filter_cons, ih]
    cases h1 : sent.contains (paper_id p) with
    | true =>
      have hk : keepSpec sent cfg p = false := by
        simp only [keepSpec, h1, Bool.not_true, Bool.false_and]
      simp [hk]
    | false =>
      cases h2 : (cfg.title_keywords.isEmpty
          || cfg.title_keywords.any (fun kw => py_in (lowerStr kw) (lowerStr p.title))) with
      | false =>
        have g2 : (!cfg.title_keywords.isEmpty
            && !(cfg.title_keywords.any (fun kw => py_in (lowerStr kw) (lowerStr p.title)))) = true := by
          rw [← Bool.not_or, h2]; rfl
        have hk : keepSpec sent cfg p = false := by
          simp only [keepSpec, h1, Bool.not_false, Bool.true_and, h2, Bool.false_and]
        simp [g2, hk]
      | true =>
        have g2 : (!cfg.title_keywords.isEmpty
            && !(cfg.title_keywords.any (fun kw => py_in (lowerStr kw) (lowerStr p.title)))) = false := by
          rw [← Bool.not_or, h2]; rfl
        cases h3 : (cfg.abstract_keywords.isEmpty
            || cfg.abstract_keywords.any (fun kw => py_in (lowerStr kw) (lowerStr p.summary))) with
        | false =>
          have g3 : (!cfg.abstract_keywords.isEmpty
              && !(cfg.abstract_keywords.any (fun kw => py_in (lowerStr kw) (lowerStr p.summary)))) = true := by
            rw [← Bool.not_or, h3]; rfl
          have hk : keepSpec sent cfg p = false := by
            simp only [keepSpec, h1, Bool.not_false, Bool.true_and, h2, h3, Bool.and_false]
          simp [g2, g3, hk]
        | true =>
          have g3 : (!cfg.abstract_keywords.isEmpty
              && !(cfg.abstract_keywords.any (fun kw => py_in (lowerStr kw) (lowerStr p.summary)))) = false := by
            rw [← Bool.not_or, h3]; rfl
          have hk : keepSpec sent cfg p = true := by
            simp only [keepSpec, h1, Bool.not_false, Bool.true_and, h2, h3, Bool.and_true]
          simp [g2, g3, hk]

/-- Membership in the id set after one insert. -/
theorem mem_get_sent_mark (db : List LedgerEntry) (pid t d : String)
    (cats : List String) (x : String) :
    x ∈ get_sent_papers (mark_as_sent db pid t d cats)
      ↔ (x ∈ get_sent_papers db ∨ x = pid) := by
  unfold mark_as_sent
  cases h : db.any (fun e => e.paper_id == pid) with
  | true =>
    have hpid : pid ∈ get_sent_papers db := by
      rcases List.any_eq_true.mp h with ⟨e, he, heq⟩
      simp only [get_sent_papers, List.mem_map]
      exact ⟨e, he, beq_iff_eq.mp heq⟩
    rw [if_pos rfl]
    constructor
    · exact Or.inl
    · rintro (hx | rfl)
      · exact hx
      · exact hpid
  | false => simp [get_sent_papers]

/-- Membership in the id set after the whole commit loop. -/
theorem mem_get_sent_commit (ps : List Paper) (db : List LedgerEntry)
    (now x : String) :
    x ∈ get_sent_papers (commit db ps now)
      ↔ (x ∈ get_sent_papers db ∨ x ∈ ps.map paper_id) := by
  induction ps generalizing db with
  | nil => simp [commit]
  | cons p rest ih =>
    have step : commit db (p :: rest) now
        = commit (mark_as_sent db (paper_id p) p.title now p.categories) rest now := rfl
    rw [step, ih, mem_get_sent_mark]
    simp [or_assoc]

/-- The per-channel retry loop never lets an exception out and computes the
total loop description. -/
theorem retryChannel_eq_ok (ch : Channel) (fuel attempt : Nat) :
    retryChannel ch fuel attempt = Except.ok (chResultAux ch fuel attempt) := by
  induction fuel generalizing attempt with
  | zero => rfl
  | succ f ih =>
    cases h : methodCall ch attempt <;>
      simp [retryChannel, chResultAux, h, ih]

/-- The channel loop over the method list never lets an exception out, and
each channel's result is a function of that channel alone. -/
theorem dispatchChannels_eq_ok (m : Nat) (chs : List Channel) :
    dispatchChannels m chs
      = Except.ok (chs.map (fun ch => chResultAux ch m 0)) := by
  induction chs with
  | nil => rfl
  | cons ch rest ih => simp [dispatchChannels, retryChannel_eq_ok, ih]

/-- A channel's loop runs its method at most `fuel` times. -/
theorem chResultAux_attempts_le (ch : Channel) (fuel attempt : Nat) :
    (chResultAux ch fuel attempt).attempts ≤ fuel := by
  induction fuel generalizing attempt with
  | zero => exact Nat.le_refl 0
  | succ f ih =>
    have hh := ih (attempt + 1)
    simp only [chResultAux]
    cases h : methodCall ch attempt with
    | ok u => simp
    | error e => simp; omega

/-- A channel whose method always fails is attempted exactly `fuel` times
and never delivers. -/
theorem chResultAux_all_fail (ch : Channel)
    (h : ∀ a, okB (methodCall ch a) = false) (fuel attempt : Nat) :
    chResultAux ch fuel attempt = ⟨fuel, false⟩ := by
  induction fuel generalizing attempt with
  | zero => rfl
  | succ f ih =>
    simp only [chResultAux]
    cases hm : methodCall ch attempt with
    | ok u =>
      have hfalse := h attempt
      rw [hm] at hfalse
      simp [okB] at hfalse
    | error e => simp [ih (attempt + 1)]

/-- A channel succeeding first on relative attempt `k` stops right there:
`k + 1` method invocations, delivered. -/
theorem chResultAux_first_success (ch : Channel) (k : Nat) :
    ∀ fuel attempt, k < fuel →
      (∀ j, j < k → okB (methodCall ch (attempt + j)) = false) →
      okB (methodCall ch (attempt + k)) = true →
      chResultAux ch fuel attempt = ⟨k + 1, true⟩ := by
  induction k with
  | zero =>
    intro fuel attempt hlt hfail hok
    cases fuel with
    | zero => omega
    | succ f =>
      simp only [chResultAux]
      cases hm : methodCall ch attempt with
      | ok u => rfl
      | error e =>
        rw [Nat.add_zero, hm] at hok
        simp [okB] at hok
  | succ k ih =>
    intro fuel attempt hlt hfail hok
    cases fuel with
    | zero => omega
    | succ f =>
      simp only [chResultAux]
      cases hm : methodCall ch attempt with
      | ok u =>
        have h0 := hfail 0 (Nat.succ_pos k)
        rw [Nat.add_zero, hm] at h0
        simp [okB] at h0
      | error e =>
        have hrec : chResultAux ch f (attempt + 1) = ⟨k + 1, true⟩ := by
          apply ih f (attempt + 1) (by omega)
          · intro j hj
            have hf := hfail (j + 1) (by omega)
            have harith : attempt + (j + 1) = attempt + 1 + j := by omega
            rw [harith] at hf
            exact hf
          · have harith : attempt + (k + 1) = attempt + 1 + k := by omega
            rw [harith] at hok
            exact hok
        simp [hrec]

/-- A known identifier makes the keep predicate reject. -/
theorem keepSpec_false_of_mem (sent : List String) (cfg : FilterConfig)
    (p : Paper) (h : sent.contains (paper_id p) = true) :
    keepSpec sent cfg p = false := by
  simp only [keepSpec, h, Bool.not_true, Bool.false_and]

/-- Rejection survives growing the known-identifier set. -/
theorem keepSpec_false_mono (sent1 sent2 : List String) (cfg : FilterConfig)
    (p : Paper)
    (hsub : sent1.contains (paper_id p) = true → sent2.contains (paper_id p) = true)
    (h : keepSpec sent1 cfg p = false) : keepSpec sent2 cfg p = false := by
  unfold keepSpec at h ⊢
  cases h1 : sent1.contains (paper_id p) with
  | true => simp only [hsub h1, Bool.not_true, Bool.false_and]
  | false =>
    cases h2 : sent2.contains (paper_id p) with
    | true => simp only [h2, Bool.not_true, Bool.false_and]
    | false =>
      simp only [h1, Bool.not_false, Bool.true_and] at h
      simp only [h2, Bool.not_false, Bool.true_and]
      exact h

/-- Bool membership test against propositional membership. -/
theorem contains_iff_mem (l : List String) (x : String) :
    l.contains x = true ↔ x ∈ l := by
  simp [List.contains]

/-! ### Claims -/

/-- C2: for every candidate list, known-identifier set and keyword rule
pair, the filter stage returns exactly the candidates, in input order, whose
identifier is not in the known set and which satisfy the keyword rules (an
empty rule set imposes no constraint, a non-empty one requires a
case-insensitive substring match); with no rules the output is the input
minus the known identifiers, order preserved. -/
theorem claim_C2 (sent : List String) (cfg : FilterConfig) (ps : List Paper) :
    filter_papers sent cfg ps = ps.filter (keepSpec sent cfg)
    ∧ filter_papers sent ⟨[], []⟩ ps
        = ps.filter (fun p => !(sent.contains (paper_id p))) := by
  constructor
  · exact filter_papers_eq_filter sent cfg ps
  · rw [filter_papers_eq_filter]
    apply List.filter_congr
    intro p hp
    simp [keepSpec]

/-- C5: the ledger insert is idempotent and never removes or overwrites:
inserting an identifier that already has a row is a no-op leaving every
existing row (title, timestamp, categories) unchanged, and any insert at
most appends to the existing rows. -/
theorem claim_C5 (db : List LedgerEntry) (pid t d : String)
    (cats : List String) :
    ((∃ e, e ∈ db ∧ e.paper_id = pid) → mark_as_sent db pid t d cats = db)
    ∧ (∃ tail, mark_as_sent db pid t d cats = db ++ tail) := by
  unfold mark_as_sent
  cases h : db.any (fun e => e.paper_id == pid) with
  | true =>
    refine ⟨fun _ => by simp, ⟨[], by simp⟩⟩
  | false =>
    constructor
    · rintro ⟨e, he, heq⟩
      exfalso
      have hany : db.any (fun e => e.paper_id == pid) = true :=
        List.any_eq_true.mpr ⟨e, he, by simp [heq]⟩
      rw [h] at hany
      exact Bool.false_ne_true hany
    · exact ⟨[⟨pid, t, d, String.intercalate (",") cats⟩], by simp⟩

/-- C5 witness: re-inserting `paperA`'s identifier with a different title,
date and categories leaves the single existing row untouched. -/
theorem claim_C5_witness :
    mark_as_sent [entryA] ("2401.00001v1") ("Other") ("t2") [("cs.LG")]
      = [entryA] :=
  (claim_C5 [entryA] ("2401.00001v1") ("Other") ("t2") [("cs.LG")]).1
    ⟨entryA, by decide, rfl⟩

/-- C1: whenever the filtered set of a run contains a record, that record's
identifier is in the ledger at the end of the run, whatever the channels and
retry configuration did. -/
theorem claim_C1 (st : BotState) (cfg : BotConfig) (papers : List Paper)
    (now : String) (p : Paper)
    (h : p ∈ filter_papers (get_sent_papers st.db) cfg.filter papers) :
    paper_id p ∈ get_sent_papers ((run st cfg papers now).1.db) := by
  have hne : (filter_papers (get_sent_papers st.db) cfg.filter papers).isEmpty
      = false := by
    cases hF : filter_papers (get_sent_papers st.db) cfg.filter papers with
    | nil => rw [hF] at h; cases h
    | cons a l => rfl
  simp only [run, hne, Bool.false_eq_true, if_false]
  exact (mem_get_sent_commit _ _ _ _).mpr
    (Or.inr (List.mem_map_of_mem paper_id h))

/-- C1 witness: a run over one fresh paper with a failing email channel and
a disabled webhook channel still records the paper's identifier. -/
theorem claim_C1_witness :
    paper_id paperA ∈ get_sent_papers ((run ⟨[]⟩ cfgAB [paperA] ("t")).1.db) :=
  claim_C1 ⟨[]⟩ cfgAB [paperA] ("t") paperA (by decide)

/-- C10: deduplication is only against the pre-run ledger snapshot, never
within the batch: a record whose identifier is not yet known is kept with
its full multiplicity, so in-batch duplicates all survive the filter, and
the email and webhook channels receive that filtered list unchanged. -/
theorem claim_C10 (sent : List String) (ps : List Paper) (p : Paper)
    (h : sent.contains (paper_id p) = false) :
    List.count p (filter_papers sent ⟨[], []⟩ ps) = List.count p ps
    ∧ email_papers (filter_papers sent ⟨[], []⟩ ps)
        = filter_papers sent ⟨[], []⟩ ps
    ∧ webhook_papers (filter_papers sent ⟨[], []⟩ ps)
        = filter_papers sent ⟨[], []⟩ ps := by
  refine ⟨?_, rfl, rfl⟩
  rw [filter_papers_eq_filter]
  apply List.count_filter
  have hnotmem : paper_id p ∉ sent := by
    intro hmem
    have hc := (contains_iff_mem sent (paper_id p)).mpr hmem
    rw [h] at hc
    exact Bool.false_ne_true hc
  simp [keepSpec, hnotmem]

/-- C10 witness: two copies of the same unseen paper both pass the filter. -/
theorem claim_C10_witness :
    List.count paperA (filter_papers [("x")] ⟨[], []⟩ [paperA, paperA])
        = List.count paperA [paperA, paperA]
    ∧ email_papers (filter_papers [("x")] ⟨[], []⟩ [paperA, paperA])
        = filter_papers [("x")] ⟨[], []⟩ [paperA, paperA]
    ∧ webhook_papers (filter_papers [("x")] ⟨[], []⟩ [paperA, paperA])
        = filter_papers [("x")] ⟨[], []⟩ [paperA, paperA] :=
  claim_C10 [("x")] [paperA, paperA] paperA (by decide)

/-- C3: for every non-empty record list and every configuration, the
dispatcher returns normally: every failure of a delivery attempt is caught
inside that channel's retry loop and dispatch proceeds, so no exception
escapes `send_notifications`. -/
theorem claim_C3 (cfg : BotConfig) (papers : List Paper) (h : papers ≠ []) :
    ∃ rs, send_notifications cfg papers = Except.ok rs := by
  refine ⟨(channelsOf cfg).map (fun ch => chResultAux ch (maxAttemptsOf cfg) 0), ?_⟩
  have hne : papers.isEmpty = false := by
    cases papers with
    | nil => exact absurd rfl h
    | cons a l => rfl
  simp [send_notifications, hne, dispatchChannels_eq_ok]

/-- C3 witness: dispatch over a failing, a succeeding and a disabled channel
returns normally. -/
theorem claim_C3_witness :
    ∃ rs, send_notifications cfgAB [paperA] = Except.ok rs :=
  claim_C3 cfgAB [paperA] (by simp)

/-- C7: dispatch on an empty record list is a trivially successful no-op
with an empty attempt trace, and it is distinguishable from any dispatch on
a non-empty list, which always carries the three channels' results. -/
theorem claim_C7 (cfg : BotConfig) (papers : List Paper) (h : papers ≠ []) :
    send_notifications cfg [] = Except.ok []
    ∧ send_notifications cfg papers ≠ Except.ok [] := by
  constructor
  · rfl
  · have hne : papers.isEmpty = false := by
      cases papers with
      | nil => exact absurd rfl h
      | cons a l => rfl
    intro hc
    simp only [send_notifications, hne, Bool.false_eq_true, if_false] at hc
    rw [dispatchChannels_eq_ok] at hc
    simp [channelsOf] at hc

/-- C7 witness: the empty dispatch no-op against an all-channel
configuration with one paper pending. -/
theorem claim_C7_witness :
    send_notifications cfgAB [] = Except.ok []
    ∧ send_notifications cfgAB [paperA] ≠ Except.ok [] :=
  claim_C7 cfgAB [paperA] (by simp)

/-- C4 counterexample: with `max_attempts` explicitly configured to `0`, an
enabled channel whose delivery always succeeds is attempted zero times, not
exactly once as the claim states. -/
theorem claim_C4_counterexample :
    chOk.enabled = true
    ∧ okB (chOk.deliver 0) = true
    ∧ maxAttemptsOf cfgZero = 0
    ∧ send_notifications cfgZero [paperA]
        = Except.ok [⟨0, false⟩, ⟨0, false⟩, ⟨0, false⟩]
    ∧ deliver_calls chOk (maxAttemptsOf cfgZero) ≠ 1 :=
  ⟨rfl, rfl, rfl, rfl, by decide⟩

/-- C4 amended: each channel's delivery is invoked at most `max_attempts`
times (default 3 when unconfigured, witnessed separately); each channel's
result is a function of that channel alone; an enabled always-failing
channel is attempted exactly `max_attempts` times without delivering; a
first success on attempt `k` stops the loop at `k + 1` invocations; and an
enabled channel succeeding at once is attempted exactly once provided
`max_attempts` is at least 1 (with `max_attempts = 0` no channel is ever
attempted, which is where the original claim fails). -/
theorem claim_C4 (cfg : BotConfig) (papers : List Paper) (h : papers ≠ []) :
    send_notifications cfg papers
        = Except.ok ((channelsOf cfg).map
            (fun ch => chResultAux ch (maxAttemptsOf cfg) 0))
    ∧ (∀ ch : Channel, deliver_calls ch (maxAttemptsOf cfg) ≤ maxAttemptsOf cfg)
    ∧ (∀ ch : Channel, ch.enabled = true → (∀ a, okB (ch.deliver a) = false) →
        deliver_calls ch (maxAttemptsOf cfg) = maxAttemptsOf cfg
        ∧ (chResultAux ch (maxAttemptsOf cfg) 0).delivered = false)
    ∧ (∀ ch : Channel, ∀ k : Nat, k < maxAttemptsOf cfg →
        (∀ j, j < k → okB (methodCall ch j) = false) →
        okB (methodCall ch k) = true →
        (chResultAux ch (maxAttemptsOf cfg) 0).attempts = k + 1
        ∧ (chResultAux ch (maxAttemptsOf cfg) 0).delivered = true)
    ∧ (∀ ch : Channel, ch.enabled = true → okB (ch.deliver 0) = true →
        1 ≤ maxAttemptsOf cfg → deliver_calls ch (maxAttemptsOf cfg) = 1)
    ∧ (∀ f : FilterConfig, ∀ e s w : Channel,
        maxAttemptsOf ⟨f, e, s, w, none⟩ = 3) := by
  refine ⟨?_, ?_, ?_, ?_, ?_, fun f e s w => rfl⟩
  · have hne : papers.isEmpty = false := by
      cases papers with
      | nil => exact absurd rfl h
      | cons a l => rfl
    simp [send_notifications, hne, dispatchChannels_eq_ok]
  · intro ch
    unfold deliver_calls
    cases ch.enabled with
    | true => simpa using chResultAux_attempts_le ch (maxAttemptsOf cfg) 0
    | false => simp
  · intro ch he hf
    have hmf : ∀ a, okB (methodCall ch a) = false := by
      intro a
      simp [methodCall, he, hf a]
    rw [chResultAux_all_fail ch hmf]
    simp [deliver_calls, he, chResultAux_all_fail ch hmf]
  · intro ch k hk hfail hok
    have hfs := chResultAux_first_success ch k (maxAttemptsOf cfg) 0 hk
      (by intro j hj; simpa using hfail j hj) (by simpa using hok)
    simp [hfs]
  · intro ch he hok hm
    cases hmm : maxAttemptsOf cfg with
    | zero => omega
    | succ m =>
      have h0 : okB (methodCall ch 0) = true := by
        simp [methodCall, he, hok]
      have hfs := chResultAux_first_success ch 0 (m + 1) 0 (Nat.succ_pos m)
        (fun j hj => absurd hj (Nat.not_lt_zero j)) (by simpa using h0)
      simp [deliver_calls, he, hfs]

/-- C4 witness: with three configured attempts, a failing email channel is
attempted three times, a succeeding chat channel once, and the disabled
webhook channel's method returns at once. -/
theorem claim_C4_witness :
    send_notifications cfgAB [paperA]
      = Except.ok [⟨3, false⟩, ⟨1, true⟩, ⟨1, true⟩] := by
  have h := claim_C4 cfgAB [paperA] (by simp)
  rw [h.1]
  rfl

/-- C6: the pipeline is idempotent across runs: after one run on a
candidate set, running the filter on the same set against the updated
ledger yields nothing, and a second full run never invokes the
dispatcher. -/
theorem claim_C6 (st : BotState) (cfg : BotConfig) (papers : List Paper)
    (now now2 : String) :
    filter_papers (get_sent_papers ((run st cfg papers now).1.db)) cfg.filter papers = []
    ∧ (run ((run st cfg papers now).1) cfg papers now2).2 = none := by
  cases hF : (filter_papers (get_sent_papers st.db) cfg.filter papers).isEmpty with
  | true =>
    have hnil : filter_papers (get_sent_papers st.db) cfg.filter papers = [] := by
      cases hl : filter_papers (get_sent_papers st.db) cfg.filter papers with
      | nil => rfl
      | cons a l => rw [hl] at hF; cases hF
    have hrun : run st cfg papers now = (st, none) := by
      simp [run, hF]
    rw [hrun]
    exact ⟨hnil, by simp [run, hF]⟩
  | false =>
    have hrun : run st cfg papers now
        = (⟨commit st.db (filter_papers (get_sent_papers st.db) cfg.filter papers) now⟩,
           some (send_notifications cfg
             (filter_papers (get_sent_papers st.db) cfg.filter papers))) := by
      simp [run, hF]
    have hall : ∀ p ∈ papers,
        keepSpec (get_sent_papers (commit st.db
          (filter_papers (get_sent_papers st.db) cfg.filter papers) now)) cfg.filter p
          = false := by
      intro p hp
      cases hk : keepSpec (get_sent_papers st.db) cfg.filter p with
      | true =>
        have hpF : p ∈ filter_papers (get_sent_papers st.db) cfg.filter papers := by
          rw [filter_papers_eq_filter]
          exact List.mem_filter.mpr ⟨hp, hk⟩
        apply keepSpec_false_of_mem
        apply (contains_iff_mem _ _).mpr
        apply (mem_get_sent_commit _ _ _ _).mpr
        exact Or.inr (List.mem_map_of_mem paper_id hpF)
      | false =>
        apply keepSpec_false_mono (get_sent_papers st.db) _ cfg.filter p _ hk
        intro hc1
        apply (contains_iff_mem _ _).mpr
        apply (mem_get_sent_commit _ _ _ _).mpr
        exact Or.inl ((contains_iff_mem _ _).mp hc1)
    have hnil2 : filter_papers (get_sent_papers (commit st.db
        (filter_papers (get_sent_papers st.db) cfg.filter papers) now)) cfg.filter papers
        = [] := by
      rw [filter_papers_eq_filter]
      apply List.filter_eq_nil_iff.mpr
      intro a ha
      rw [hall a ha]
      simp
    constructor
    · rw [hrun]
      exact hnil2
    · rw [hrun]
      have hE : (filter_papers (get_sent_papers (commit st.db
          (filter_papers (get_sent_papers st.db) cfg.filter papers) now)) cfg.filter
          papers).isEmpty = true := by
        rw [hnil2]
        rfl
      simp [run, hE]

/-- C8: the chat channel's truncation to the first 10 records shapes only
its own payload: after a run with a non-empty filtered set, the ledger ids
are exactly the previous ids plus the ids of the whole filtered set, while
the email and generic-webhook channels carry the full filtered list and the
chat channel exactly its 10-element prefix. -/
theorem claim_C8 (st : BotState) (cfg : BotConfig) (papers : List Paper)
    (now : String)
    (h : filter_papers (get_sent_papers st.db) cfg.filter papers ≠ []) :
    (∀ x : String,
      x ∈ get_sent_papers ((run st cfg papers now).1.db)
        ↔ (x ∈ get_sent_papers st.db
            ∨ x ∈ (filter_papers (get_sent_papers st.db) cfg.filter papers).map paper_id))
    ∧ email_papers (filter_papers (get_sent_papers st.db) cfg.filter papers)
        = filter_papers (get_sent_papers st.db) cfg.filter papers
    ∧ webhook_papers (filter_papers (get_sent_papers st.db) cfg.filter papers)
        = filter_papers (get_sent_papers st.db) cfg.filter papers
    ∧ slack_papers (filter_papers (get_sent_papers st.db) cfg.filter papers)
        = (filter_papers (get_sent_papers st.db) cfg.filter papers).take 10 := by
  have hne : (filter_papers (get_sent_papers st.db) cfg.filter papers).isEmpty
      = false := by
    cases hl : filter_papers (get_sent_papers st.db) cfg.filter papers with
    | nil => exact absurd hl h
    | cons a l => rfl
  refine ⟨?_, rfl, rfl, rfl⟩
  intro x
  simp only [run, hne, Bool.false_eq_true, if_false]
  exact mem_get_sent_commit _ _ _ _

/-- C8 witness: a run over one fresh paper records its id, and the payload
views of the filtered set are the full list for email and webhook and the
10-element prefix for chat. -/
theorem claim_C8_witness :
    (paper_id paperA ∈ get_sent_papers ((run ⟨[]⟩ cfgAB [paperA] ("t")).1.db)
        ↔ (paper_id paperA ∈ get_sent_papers (BotState.mk []).db
            ∨ paper_id paperA ∈ (filter_papers (get_sent_papers (BotState.mk []).db)
                cfgAB.filter [paperA]).map paper_id))
    ∧ slack_papers (filter_papers (get_sent_papers (BotState.mk []).db)
          cfgAB.filter [paperA])
        = (filter_papers (get_sent_papers (BotState.mk []).db)
            cfgAB.filter [paperA]).take 10 := by
  have hc := claim_C8 ⟨[]⟩ cfgAB [paperA] ("t") (by decide)
  exact ⟨hc.1 (paper_id paperA), hc.2.2.2⟩

/-- C9 counterexample: with a title keyword rule configured, a candidate
whose `title` field is missing makes the filter stage raise
(`AttributeError`), aborting the whole batch, although the well-formed
candidate behind it would have been kept on its own — the malformed record
is not skipped or defaulted. -/
theorem claim_C9_counterexample :
    py_filter_papers [] ⟨[("transformer")], []⟩ [badRaw, toRaw paperA]
        = Except.error ("AttributeError")
    ∧ py_filter_papers [] ⟨[("transformer")], []⟩ [toRaw paperA]
        = Except.ok [toRaw paperA] :=
  ⟨rfl, rfl⟩

/-- C9 amended: the filter stage is non-fatal exactly on candidates whose
accessed fields are present: a batch of fully-present records (possibly
with empty strings or empty rule sets) is filtered without raising and
agrees with the total-field model; a record with a missing title or
abstract raises when the corresponding keyword rules are configured,
aborting the batch (see the counterexample). -/
theorem claim_C9 (sent : List String) (cfg : FilterConfig)
    (papers : List Paper) :
    py_filter_papers sent cfg (papers.map toRaw)
      = Except.ok ((filter_papers sent cfg papers).map toRaw) := by
  induction papers with
  | nil => rfl
  | cons p rest ih =>
    simp only [List.map_cons, py_filter_papers, filter_papers, toRaw, pyGetAttr,
      paper_id]
    rcases Bool.eq_false_or_eq_true (sent.contains (last_component p.entry_id))
      with h1 | h1
    · simp only [h1, eq_self_iff_true, if_true, ih]
    · have tEq : (if !cfg.title_keywords.isEmpty
            then (Except.ok (cfg.title_keywords.any
                (fun kw => py_in (lowerStr kw) (lowerStr p.title))) : Except String Bool)
            else Except.ok true)
          = Except.ok (cfg.title_keywords.isEmpty
              || cfg.title_keywords.any (fun kw => py_in (lowerStr kw) (lowerStr p.title))) := by
        cases h2 : cfg.title_keywords.isEmpty <;> simp [h2]
      have aEq : (if !cfg.abstract_keywords.isEmpty
            then (Except.ok (cfg.abstract_keywords.any
                (fun kw => py_in (lowerStr kw) (lowerStr p.summary))) : Except String Bool)
            else Except.ok true)
          = Except.ok (cfg.abstract_keywords.isEmpty
              || cfg.abstract_keywords.any (fun kw => py_in (lowerStr kw) (lowerStr p.summary))) := by
        cases h3 : cfg.abstract_keywords.isEmpty <;> simp [h3]
      rcases Bool.eq_false_or_eq_true (cfg.title_keywords.isEmpty
          || cfg.title_keywords.any (fun kw => py_in (lowerStr kw) (lowerStr p.title)))
        with hT | hT
      · have g2 : (!cfg.title_keywords.isEmpty
            && !(cfg.title_keywords.any (fun kw => py_in (lowerStr kw) (lowerStr p.title)))) = false := by
          rw [← Bool.not_or, hT]; rfl
        rcases Bool.eq_false_or_eq_true (cfg.abstract_keywords.isEmpty
            || cfg.abstract_keywords.any (fun kw => py_in (lowerStr kw) (lowerStr p.summary)))
          with hA | hA
        · have g3 : (!cfg.abstract_keywords.isEmpty
              && !(cfg.abstract_keywords.any (fun kw => py_in (lowerStr kw) (lowerStr p.summary)))) = false := by
            rw [← Bool.not_or, hA]; rfl
          simp only [h1, tEq, aEq, hT, hA, g2, g3, ih, Bool.not_true,
            Bool.not_false, Bool.false_eq_true, eq_self_iff_true, if_true,
            if_false, List.map_cons, toRaw]
        · have g3 : (!cfg.abstract_keywords.isEmpty
              && !(cfg.abstract_keywords.any (fun kw => py_in (lowerStr kw) (lowerStr p.summary)))) = true := by
            rw [← Bool.not_or, hA]; rfl
          simp only [h1, tEq, aEq, hT, hA, g2, g3, ih, Bool.not_true,
            Bool.not_false, Bool.false_eq_true, eq_self_iff_true, if_true,
            if_false, List.map_cons]
      · have g2 : (!cfg.title_keywords.isEmpty
            && !(cfg.title_keywords.any (fun kw => py_in (lowerStr kw) (lowerStr p.title)))) = true := by
          rw [← Bool.not_or, hT]; rfl
        simp only [h1, tEq, hT, g2, ih, Bool.not_true, Bool.not_false,
          Bool.false_eq_true, eq_self_iff_true, if_true, if_false,
          List.map_cons]

end ArxivAlertBot
